import Mathlib

/-!
# Verification of the `@github-tools/sdk` registry composer and tools

Shallow embedding of `packages/github-tools/src/index.ts` (both the newer
preset-capable registry composer and the older preset-less one) and of the
repository tools in `packages/github-tools/src/tools/repository.ts`.

Conventions:
* a JS object used as an ordered map is a `List (String × _)` in insertion
  order; `Object.entries` / `Object.fromEntries` / `.filter` act on that list;
* a JS `Set` is represented by a `List` queried through `contains`
  (only membership is ever observed by the source);
* the opaque Octokit client handle is a structure holding the token;
* JS strings handed to `Buffer` are represented by their UTF-8 byte
  sequences (`List Nat`, each byte `< 256`).
-/

namespace GithubTools

/-- The Octokit client handle created by `createOctokit(token)`
(`src/client.ts`).  The layer under verification only threads it through,
so it is modelled as a wrapper around the token. -/
structure Octokit where
  token : String
  deriving DecidableEq, Repr

/-- `createOctokit` from `src/client.ts`. -/
def createOctokit (token : String) : Octokit := ⟨token⟩

/-- The `GithubWriteToolName` union type of `index.ts`: the seven mutating
tool names. -/
inductive GithubWriteToolName where
  | createOrUpdateFile
  | createPullRequest
  | mergePullRequest
  | addPullRequestComment
  | createIssue
  | addIssueComment
  | closeIssue
  deriving DecidableEq, Repr

/-- The string spelling of a mutating tool name, as it appears as a registry
key in `index.ts`. -/
def GithubWriteToolName.str : GithubWriteToolName → String
  | .createOrUpdateFile => "createOrUpdateFile"
  | .createPullRequest => "createPullRequest"
  | .mergePullRequest => "mergePullRequest"
  | .addPullRequestComment => "addPullRequestComment"
  | .createIssue => "createIssue"
  | .addIssueComment => "addIssueComment"
  | .closeIssue => "closeIssue"

/-- `ApprovalConfig = boolean | Partial<Record<GithubWriteToolName, boolean>>`.
The partial record is a finite map, embedded as a function into `Option`. -/
inductive ApprovalConfig where
  | uniform (b : Bool)
  | perTool (m : GithubWriteToolName → Option Bool)

/-- `resolveApproval` from `index.ts`:
`if (typeof config === 'boolean') return config; return config[toolName] ?? true`. -/
def resolveApproval (toolName : GithubWriteToolName) (config : ApprovalConfig) : Bool :=
  match config with
  | .uniform b => b
  | .perTool m => (m toolName).getD true

/-- The `GithubToolPreset` union type of `index.ts`. -/
inductive GithubToolPreset where
  | codeReview
  | issueTriage
  | repoExplorer
  | maintainer
  deriving DecidableEq, Repr

/-- The `PRESET_TOOLS` constant table of `index.ts`, lists kept in source
order. -/
def PRESET_TOOLS : GithubToolPreset → List String
  | .codeReview =>
    ["getPullRequest", "listPullRequests", "getFileContent", "listCommits", "getCommit",
     "getRepository", "listBranches", "searchCode",
     "addPullRequestComment"]
  | .issueTriage =>
    ["listIssues", "getIssue", "createIssue", "addIssueComment", "closeIssue",
     "getRepository", "searchRepositories", "searchCode"]
  | .repoExplorer =>
    ["getRepository", "listBranches", "getFileContent",
     "listPullRequests", "getPullRequest",
     "listIssues", "getIssue",
     "listCommits", "getCommit",
     "searchCode", "searchRepositories"]
  | .maintainer =>
    ["getRepository", "listBranches", "getFileContent", "createOrUpdateFile",
     "listPullRequests", "getPullRequest", "createPullRequest", "mergePullRequest", "addPullRequestComment",
     "listIssues", "getIssue", "createIssue", "addIssueComment", "closeIssue",
     "listCommits", "getCommit",
     "searchCode", "searchRepositories"]

/-- The `preset` option of `GithubToolsOptions`: either a single preset
identifier or an array of them (`GithubToolPreset | GithubToolPreset[]`).
An omitted selector is `Option.none` at the use site. -/
inductive PresetArg where
  | one (p : GithubToolPreset)
  | many (ps : List GithubToolPreset)
  deriving DecidableEq, Repr

/-- The `presets` local of `resolvePresetTools`:
`Array.isArray(preset) ? preset : [preset]`. -/
def PresetArg.toList : PresetArg → List GithubToolPreset
  | .one p => [p]
  | .many ps => ps

/-- The loop body of `resolvePresetTools`: fold the member lists of the
selected presets into one accumulated collection.  The JS `Set` is queried
only through `has`, so the accumulator is a list queried through
`contains`. -/
def presetToolsUnion : List GithubToolPreset → List String
  | [] => []
  | p :: ps => PRESET_TOOLS p ++ presetToolsUnion ps

/-- `resolvePresetTools` from `index.ts`, for a supplied (non-omitted)
selector: the union of the member sets of the selected presets.
(The `if (!preset) return null` guard never fires on a supplied selector:
every value of the `GithubToolPreset | GithubToolPreset[]` type is truthy,
including the empty array.) -/
def resolvePresetTools (preset : PresetArg) : List String :=
  presetToolsUnion preset.toList

/-- A tool definition, as observed by the registry layer: the shared client
handle it closes over and its `needsApproval` flag.  Read-only tool
factories never set `needsApproval` (`none`); mutating factories receive
`{ needsApproval: resolveApproval(name, requireApproval) }` from the
composer. -/
structure ToolDef where
  octokit : Octokit
  needsApproval : Option Bool
  deriving DecidableEq, Repr

/-- The `allTools` object literal of the preset-capable `createGithubTools`
(`index.ts`, first version), entries in source order.  Read-only tools carry
no approval flag; each write tool receives
`approval(name) = { needsApproval: resolveApproval(name, requireApproval) }`. -/
def allTools (octokit : Octokit) (requireApproval : ApprovalConfig) :
    List (String × ToolDef) :=
  [("getRepository", ⟨octokit, none⟩),
   ("listBranches", ⟨octokit, none⟩),
   ("getFileContent", ⟨octokit, none⟩),
   ("listPullRequests", ⟨octokit, none⟩),
   ("getPullRequest", ⟨octokit, none⟩),
   ("listIssues", ⟨octokit, none⟩),
   ("getIssue", ⟨octokit, none⟩),
   ("searchCode", ⟨octokit, none⟩),
   ("searchRepositories", ⟨octokit, none⟩),
   ("listCommits", ⟨octokit, none⟩),
   ("getCommit", ⟨octokit, none⟩),
   ("createOrUpdateFile",
    ⟨octokit, some (resolveApproval .createOrUpdateFile requireApproval)⟩),
   ("createPullRequest",
    ⟨octokit, some (resolveApproval .createPullRequest requireApproval)⟩),
   ("mergePullRequest",
    ⟨octokit, some (resolveApproval .mergePullRequest requireApproval)⟩),
   ("addPullRequestComment",
    ⟨octokit, some (resolveApproval .addPullRequestComment requireApproval)⟩),
   ("createIssue",
    ⟨octokit, some (resolveApproval .createIssue requireApproval)⟩),
   ("addIssueComment",
    ⟨octokit, some (resolveApproval .addIssueComment requireApproval)⟩),
   ("closeIssue",
    ⟨octokit, some (resolveApproval .closeIssue requireApproval)⟩)]

/-- The preset-capable `createGithubTools` of `index.ts` (first version).
`allowed = preset ? resolvePresetTools(preset) : null`; when `allowed` is
null the full object is returned, otherwise
`Object.fromEntries(Object.entries(allTools).filter(([name]) => allowed.has(name)))`. -/
def createGithubTools (token : String) (requireApproval : ApprovalConfig)
    (preset : Option PresetArg) : List (String × ToolDef) :=
  let octokit := createOctokit token
  let all := allTools octokit requireApproval
  match preset with
  | none => all
  | some pa => all.filter (fun e => (resolvePresetTools pa).contains e.1)

/-- The older, preset-less `createGithubTools` of `index.ts` (second
version): it always returns the full 18-entry object, with the same
approval wiring. -/
def createGithubToolsV1 (token : String) (requireApproval : ApprovalConfig) :
    List (String × ToolDef) :=
  let octokit := createOctokit token
  [("getRepository", ⟨octokit, none⟩),
   ("listBranches", ⟨octokit, none⟩),
   ("getFileContent", ⟨octokit, none⟩),
   ("listPullRequests", ⟨octokit, none⟩),
   ("getPullRequest", ⟨octokit, none⟩),
   ("listIssues", ⟨octokit, none⟩),
   ("getIssue", ⟨octokit, none⟩),
   ("searchCode", ⟨octokit, none⟩),
   ("searchRepositories", ⟨octokit, none⟩),
   ("listCommits", ⟨octokit, none⟩),
   ("getCommit", ⟨octokit, none⟩),
   ("createOrUpdateFile",
    ⟨octokit, some (resolveApproval .createOrUpdateFile requireApproval)⟩),
   ("createPullRequest",
    ⟨octokit, some (resolveApproval .createPullRequest requireApproval)⟩),
   ("mergePullRequest",
    ⟨octokit, some (resolveApproval .mergePullRequest requireApproval)⟩),
   ("addPullRequestComment",
    ⟨octokit, some (resolveApproval .addPullRequestComment requireApproval)⟩),
   ("createIssue",
    ⟨octokit, some (resolveApproval .createIssue requireApproval)⟩),
   ("addIssueComment",
    ⟨octokit, some (resolveApproval .addIssueComment requireApproval)⟩),
   ("closeIssue",
    ⟨octokit, some (resolveApproval .closeIssue requireApproval)⟩)]

/-- The closed 18-name tool enumeration, in registry insertion order. -/
def knownToolNames : List String :=
  ["getRepository", "listBranches", "getFileContent", "listPullRequests",
   "getPullRequest", "listIssues", "getIssue", "searchCode",
   "searchRepositories", "listCommits", "getCommit", "createOrUpdateFile",
   "createPullRequest", "mergePullRequest", "addPullRequestComment",
   "createIssue", "addIssueComment", "closeIssue"]

/-- Key list of a registry. -/
def registryKeys (r : List (String × ToolDef)) : List String :=
  r.map Prod.fst

/-- Classifies a registry key as one of the seven mutating tool names
(`GithubWriteToolName`) or as a read-only tool (`none`). -/
def strToWriteName : String → Option GithubWriteToolName
  | "createOrUpdateFile" => some .createOrUpdateFile
  | "createPullRequest" => some .createPullRequest
  | "mergePullRequest" => some .mergePullRequest
  | "addPullRequestComment" => some .addPullRequestComment
  | "createIssue" => some .createIssue
  | "addIssueComment" => some .addIssueComment
  | "closeIssue" => some .closeIssue
  | _ => none

/-- A concrete partial approval mapping (`{ mergePullRequest: false }`). -/
def exampleApprovalMap : GithubWriteToolName → Option Bool
  | .mergePullRequest => some false
  | _ => none

/-- `ToolOptions` (imported from `../types` by `tools/repository.ts`): the
options object of the cherry-pickable mutating tool factories, holding an
optional `needsApproval` field, as fixed by the destructuring
`{ needsApproval = true }: ToolOptions = {}` at every use site. -/
structure ToolOptions where
  needsApproval : Option Bool := none
  deriving DecidableEq, Repr

/-- The JS default-destructuring `{ needsApproval = true }: ToolOptions = {}`
shared by the mutating tool factories of `tools/repository.ts`: a missing
options argument becomes `{}`, and a missing `needsApproval` field defaults
to `true`. -/
def resolveNeedsApprovalOpt (opts : Option ToolOptions) : Bool :=
  ((opts.getD {}).needsApproval).getD true

/-- A cherry-picked mutating tool, as observed by the claims under
verification: the client handle it closes over and the `needsApproval` flag
baked into the `tool({...})` literal.  The `execute` bodies that carry
decidable logic are modelled separately (`createBranchExec`,
`createOrUpdateFileExec`). -/
structure CherryTool where
  octokit : Octokit
  needsApproval : Bool
  deriving DecidableEq, Repr

/-- `createBranch` factory from `tools/repository.ts` (flag wiring). -/
def createBranch (ok : Octokit) (opts : Option ToolOptions) : CherryTool :=
  ⟨ok, resolveNeedsApprovalOpt opts⟩

/-- `forkRepository` factory from `tools/repository.ts` (flag wiring). -/
def forkRepository (ok : Octokit) (opts : Option ToolOptions) : CherryTool :=
  ⟨ok, resolveNeedsApprovalOpt opts⟩

/-- `createRepository` factory from `tools/repository.ts` (flag wiring). -/
def createRepository (ok : Octokit) (opts : Option ToolOptions) : CherryTool :=
  ⟨ok, resolveNeedsApprovalOpt opts⟩

/-- `createOrUpdateFile` factory from `tools/repository.ts` (flag wiring). -/
def createOrUpdateFile (ok : Octokit) (opts : Option ToolOptions) : CherryTool :=
  ⟨ok, resolveNeedsApprovalOpt opts⟩

/-- One remote Octokit call issued by `createBranch.execute`. -/
inductive RemoteCall where
  | reposGet (owner repo : String)
  | gitGetRef (owner repo ref : String)
  | gitCreateRef (owner repo ref sha : String)
  deriving DecidableEq, Repr

/-- The remote state `createBranch.execute` observes: the repository's
default branch (returned by `repos.get`) and, for each ref name, the commit
SHA returned by `git.getRef`. -/
structure BranchEnv where
  defaultBranch : String
  refSha : String → String

/-- One character class of the regex `[0-9a-f]` with the `i` flag. -/
def isHexDigitChar (c : Char) : Bool :=
  (('0' ≤ c) && (c ≤ '9')) || (('a' ≤ c) && (c ≤ 'f')) || (('A' ≤ c) && (c ≤ 'F'))

/-- `sha.match(/^[0-9a-f]{40}$/i)` viewed as a boolean: the string is exactly
40 hexadecimal characters. -/
def is40HexSha (s : String) : Bool :=
  s.length == 40 && s.toList.all isHexDigitChar

/-- The `execute` body of `createBranch` in `tools/repository.ts`, returning
the ordered list of remote calls it issues and the SHA it creates the branch
from.  Source logic: `let sha = from; if (!sha || !sha.match(/^[0-9a-f]{40}$/i))`
then `git.getRef` on `heads/${from || (await repos.get(...)).data.default_branch}`
(evaluating `repos.get` first when `from` is falsy) sets `sha`; finally
`git.createRef` on `refs/heads/${branch}` with `sha`. -/
def createBranchExec (env : BranchEnv) (owner repo branch : String)
    (fromArg : Option String) : List RemoteCall × String :=
  let needsResolve : Bool :=
    match fromArg with
    | none => true
    | some s => s == "" || !(is40HexSha s)
  if needsResolve then
    let fromFalsy : Bool :=
      match fromArg with
      | none => true
      | some s => s == ""
    let base : String :=
      match fromArg with
      | none => env.defaultBranch
      | some s => if s == "" then env.defaultBranch else s
    let refName := "heads/" ++ base
    let sha := env.refSha refName
    ((if fromFalsy then [RemoteCall.reposGet owner repo] else [])
       ++ [RemoteCall.gitGetRef owner repo refName,
           RemoteCall.gitCreateRef owner repo ("refs/heads/" ++ branch) sha],
     sha)
  else
    let sha := fromArg.getD ""
    ([RemoteCall.gitCreateRef owner repo ("refs/heads/" ++ branch) sha], sha)

/-- The base64 alphabet of Node's `Buffer` base64 codec
(used by `Buffer.from(content).toString('base64')` in `createOrUpdateFile`
and `Buffer.from(data.content, 'base64').toString('utf-8')` in
`getFileContent`). -/
def b64Alphabet : List Char :=
  ['A', 'B', 'C', 'D', 'E', 'F', 'G', 'H', 'I', 'J', 'K', 'L', 'M',
   'N', 'O', 'P', 'Q', 'R', 'S', 'T', 'U', 'V', 'W', 'X', 'Y', 'Z',
   'a', 'b', 'c', 'd', 'e', 'f', 'g', 'h', 'i', 'j', 'k', 'l', 'm',
   'n', 'o', 'p', 'q', 'r', 's', 't', 'u', 'v', 'w', 'x', 'y', 'z',
   '0', '1', '2', '3', '4', '5', '6', '7', '8', '9', '+', '/']

/-- The character encoding a sextet value (< 64). -/
def sextetChar (n : Nat) : Char := b64Alphabet.getD n '='

/-- The sextet value of an alphabet character. -/
def sextetVal (c : Char) : Nat := b64Alphabet.indexOf c

/-- `Buffer.prototype.toString('base64')`: standard base64 with `=` padding,
three input bytes per four output characters. -/
def b64EncodeCore : List Nat → List Char
  | [] => []
  | [b1] =>
    [sextetChar (b1 / 4), sextetChar (b1 % 4 * 16), '=', '=']
  | [b1, b2] =>
    [sextetChar (b1 / 4), sextetChar (b1 % 4 * 16 + b2 / 16),
     sextetChar (b2 % 16 * 4), '=']
  | b1 :: b2 :: b3 :: rest =>
    sextetChar (b1 / 4) :: sextetChar (b1 % 4 * 16 + b2 / 16)
      :: sextetChar (b2 % 16 * 4 + b3 / 64) :: sextetChar (b3 % 64)
      :: b64EncodeCore rest

/-- `Buffer.from(·, 'base64')` on well-formed padded base64: four characters
per three output bytes, with `=` padding cutting the final quantum to one or
two bytes. -/
def b64DecodeCore : List Char → List Nat
  | c1 :: c2 :: c3 :: c4 :: rest =>
    if c3 = '=' then
      [sextetVal c1 * 4 + sextetVal c2 / 16]
    else if c4 = '=' then
      [sextetVal c1 * 4 + sextetVal c2 / 16,
       sextetVal c2 % 16 * 16 + sextetVal c3 / 4]
    else
      (sextetVal c1 * 4 + sextetVal c2 / 16)
        :: (sextetVal c2 % 16 * 16 + sextetVal c3 / 4)
        :: (sextetVal c3 % 4 * 64 + sextetVal c4)
        :: b64DecodeCore rest
  | _ => []

/-- One entry of a directory response from `repos.getContent`. -/
structure ContentEntry where
  name : String
  type : String
  path : String
  deriving DecidableEq, Repr

/-- The `repos.getContent` response shape as branched on by
`getFileContent.execute`: either an array (directory listing) or a single
node carrying a `type`, `path`, `sha`, `size` and base64 `content`. -/
inductive ContentData where
  | dir (entries : List ContentEntry)
  | node (type path sha : String) (size : Nat) (content : List Char)
  deriving DecidableEq, Repr

/-- The result shapes returned by `getFileContent.execute`. -/
inductive FileResult where
  | directory (entries : List ContentEntry)
  | other (type path : String)
  | file (path sha : String) (size : Nat) (content : List Nat)
  deriving DecidableEq, Repr

/-- The `execute` body of `getFileContent` in `tools/repository.ts`:
`Array.isArray(data)` yields a listing that maps each entry to
`{name, type, path}` in response order; a non-file node yields only its type
and path; a file node yields its base64-decoded content (bytes of the UTF-8
text). -/
def getFileContentExec : ContentData → FileResult
  | .dir entries => .directory (entries.map fun e => ⟨e.name, e.type, e.path⟩)
  | .node t p sha size content =>
    if t == "file" then .file p sha size (b64DecodeCore content)
    else .other t p

/-- The request `createOrUpdateFile.execute` sends to
`repos.createOrUpdateFileContents`. -/
structure FileCommitRequest where
  owner : String
  repo : String
  path : String
  message : String
  content : List Char
  branch : Option String
  sha : Option String
  deriving DecidableEq, Repr

/-- The `execute` body of `createOrUpdateFile` in `tools/repository.ts`, up
to the remote call: the caller's plain-text content (UTF-8 bytes) is base64
encoded (`Buffer.from(content).toString('base64')`) and placed in the
request. -/
def createOrUpdateFileExec (owner repo path message : String)
    (content : List Nat) (branch sha : Option String) : FileCommitRequest :=
  ⟨owner, repo, path, message, b64EncodeCore content, branch, sha⟩

theorem registryKeys_filter (l : List (String × ToolDef)) (p : String → Bool) :
    registryKeys (l.filter fun e => p e.1) = (registryKeys l).filter p := by
  induction l with
  | nil => rfl
  | cons e l ih =>
    by_cases h : p e.1 = true
    · simp [registryKeys, List.filter_cons, h] at ih ⊢
      exact ih
    · simp only [Bool.not_eq_true] at h
      simp [registryKeys, List.filter_cons, h] at ih ⊢
      exact ih

theorem registryKeys_allTools (octokit : Octokit) (cfg : ApprovalConfig) :
    registryKeys (allTools octokit cfg) = knownToolNames := rfl

theorem registryKeys_createGithubTools_some (token : String) (cfg : ApprovalConfig)
    (pa : PresetArg) :
    registryKeys (createGithubTools token cfg (some pa))
      = knownToolNames.filter fun n => (resolvePresetTools pa).contains n := by
  unfold createGithubTools
  rw [registryKeys_filter, registryKeys_allTools]

theorem mem_registryKeys_some (token : String) (cfg : ApprovalConfig)
    (pa : PresetArg) (k : String) :
    k ∈ registryKeys (createGithubTools token cfg (some pa))
      ↔ k ∈ knownToolNames ∧ k ∈ resolvePresetTools pa := by
  rw [registryKeys_createGithubTools_some]
  simp [List.mem_filter, List.contains]

/-- C1: for every token, approval configuration and preset selector, the key
set of the registry returned by `createGithubTools` is a subset of the 18
known tool names; when the preset selector is omitted the key list is exactly
the full 18-tool enumeration. -/
theorem registry_keys_subset_known_and_full_without_preset
    (token : String) (cfg : ApprovalConfig) (pa : PresetArg) :
    ((registryKeys (createGithubTools token cfg (some pa))).all
        fun k => knownToolNames.contains k) = true
    ∧ registryKeys (createGithubTools token cfg none) = knownToolNames := by
  constructor
  · rw [List.all_eq_true]
    intro k hk
    have hmem := (mem_registryKeys_some token cfg pa k).1 hk
    simp [List.contains, hmem.1]
  · rfl

/-- C2: for all presets `p1`, `p2`, the registry built with preset
`[p1, p2]` has exactly the key set that is the union of the key sets of the
single-preset registries, and swapping the order of the two presets yields
the very same registry. -/
theorem preset_pair_is_union_and_order_irrelevant
    (token : String) (cfg : ApprovalConfig) (p1 p2 : GithubToolPreset) :
    (∀ k : String,
      (registryKeys (createGithubTools token cfg (some (.many [p1, p2])))).contains k
        = ((registryKeys (createGithubTools token cfg (some (.one p1)))).contains k
          || (registryKeys (createGithubTools token cfg (some (.one p2)))).contains k))
    ∧ createGithubTools token cfg (some (.many [p1, p2]))
        = createGithubTools token cfg (some (.many [p2, p1])) := by
  constructor
  · intro k
    rw [Bool.eq_iff_iff]
    simp only [List.contains, List.elem_eq_mem, decide_eq_true_eq, Bool.or_eq_true]
    rw [mem_registryKeys_some, mem_registryKeys_some, mem_registryKeys_some]
    simp only [resolvePresetTools, presetToolsUnion, PresetArg.toList, List.mem_append,
      List.append_nil, List.not_mem_nil, or_false]
    tauto
  · unfold createGithubTools
    apply List.filter_congr
    intro e _
    rw [Bool.eq_iff_iff]
    simp only [List.contains, List.elem_eq_mem, decide_eq_true_eq,
      resolvePresetTools, presetToolsUnion, PresetArg.toList, List.mem_append,
      List.append_nil, List.not_mem_nil, or_false]
    tauto

/-- C3: resolving the approval flag of any mutating tool name under a uniform
boolean configuration returns that boolean, regardless of the tool name. -/
theorem resolveApproval_uniform_yields_bool
    (t : GithubWriteToolName) (b : Bool) :
    resolveApproval t (.uniform b) = b := rfl

/-- C4: resolving the approval flag of a mutating tool name under a partial
per-tool mapping returns the mapping's entry when present and defaults to
`true` when the name is absent from the mapping. -/
theorem resolveApproval_perTool_entry_or_default
    (t : GithubWriteToolName) (m : GithubWriteToolName → Option Bool) :
    (∀ b : Bool, m t = some b → resolveApproval t (.perTool m) = b)
    ∧ (m t = none → resolveApproval t (.perTool m) = true) := by
  constructor
  · intro b hb
    simp [resolveApproval, hb]
  · intro hn
    simp [resolveApproval, hn]

/-- Witness for C4: under `{ mergePullRequest: false }`, the present entry is
returned and an absent tool name defaults to `true`. -/
theorem resolveApproval_perTool_entry_or_default_witness :
    resolveApproval .mergePullRequest (.perTool exampleApprovalMap) = false
    ∧ resolveApproval .createIssue (.perTool exampleApprovalMap) = true :=
  ⟨(resolveApproval_perTool_entry_or_default .mergePullRequest exampleApprovalMap).1 false rfl,
   (resolveApproval_perTool_entry_or_default .createIssue exampleApprovalMap).2 rfl⟩

/-- C8: with the preset selector omitted, the newer preset-capable composer
returns exactly the registry the older preset-less composer returns for the
same token and approval configuration — same keys, same tool definitions,
same resolved approval flags. -/
theorem createGithubTools_versions_agree (token : String) (cfg : ApprovalConfig) :
    createGithubTools token cfg none = createGithubToolsV1 token cfg := rfl

/-- C9: the empty preset array is a supplied selector whose union of member
sets is empty, so it yields the empty registry — it is not the
"no filtering" sentinel an omitted selector yields. -/
theorem empty_preset_array_yields_empty_registry
    (token : String) (cfg : ApprovalConfig) :
    createGithubTools token cfg (some (.many [])) = [] := rfl

theorem allTools_needsApproval (ok : Octokit) (cfg : ApprovalConfig) :
    ∀ e ∈ allTools ok cfg,
      e.2.needsApproval = (strToWriteName e.1).map fun w => resolveApproval w cfg := by
  intro e he
  simp only [allTools, List.mem_cons, List.not_mem_nil, or_false] at he
  rcases he with rfl|rfl|rfl|rfl|rfl|rfl|rfl|rfl|rfl|rfl|rfl|rfl|rfl|rfl|rfl|rfl|rfl|rfl
  all_goals simp [strToWriteName]

theorem knownToolNames_nodup : knownToolNames.Nodup := by decide

/-- C5: in every registry `createGithubTools` constructs, a tool definition
carries `needsApproval = some (resolveApproval w cfg)` exactly when its key
is the mutating tool name `w`, and carries no approval flag when its key is
read-only; the key list has no duplicates (so each mutating name resolves to
exactly one boolean), and in the unfiltered registry every one of the seven
mutating names is present with its resolved flag. -/
theorem registry_approval_flags (token : String) (cfg : ApprovalConfig)
    (preset : Option PresetArg) :
    (∀ e ∈ createGithubTools token cfg preset,
      e.2.needsApproval = (strToWriteName e.1).map fun w => resolveApproval w cfg)
    ∧ (registryKeys (createGithubTools token cfg preset)).Nodup
    ∧ ∀ w : GithubWriteToolName,
        (w.str, (⟨createOctokit token, some (resolveApproval w cfg)⟩ : ToolDef))
          ∈ createGithubTools token cfg none := by
  refine ⟨?_, ?_, ?_⟩
  · intro e he
    apply allTools_needsApproval (createOctokit token) cfg
    match preset with
    | none => exact he
    | some pa =>
      have he' : e ∈ (allTools (createOctokit token) cfg).filter
          (fun e => (resolvePresetTools pa).contains e.1) := he
      exact List.mem_of_mem_filter he'
  · match preset with
    | none => exact knownToolNames_nodup
    | some pa =>
      rw [registryKeys_createGithubTools_some]
      exact knownToolNames_nodup.filter _
  · intro w
    cases w <;> simp [createGithubTools, allTools, GithubWriteToolName.str]

/-- Witness for C5: a concrete registry entry of the full registry for the
uniform-`false` configuration has its flag resolved as stated, and the key
list of that registry has no duplicates. -/
theorem registry_approval_flags_witness :
    (("mergePullRequest",
        (⟨createOctokit "tok", some false⟩ : ToolDef)).2.needsApproval
      = (strToWriteName "mergePullRequest").map fun w =>
          resolveApproval w (.uniform false))
    ∧ (registryKeys (createGithubTools "tok" (.uniform false) none)).Nodup := by
  have h := registry_approval_flags "tok" (.uniform false) none
  exact ⟨h.1 ("mergePullRequest", ⟨createOctokit "tok", some false⟩) (by decide), h.2.1⟩

theorem sextetVal_sextetChar_fin :
    ∀ n : Fin 64, sextetVal (sextetChar n.val) = n.val := by decide

theorem sextetVal_sextetChar {n : Nat} (h : n < 64) :
    sextetVal (sextetChar n) = n :=
  sextetVal_sextetChar_fin ⟨n, h⟩

theorem sextetChar_ne_pad_fin :
    ∀ n : Fin 64, ¬ sextetChar n.val = '=' := by decide

theorem sextetChar_ne_pad {n : Nat} (h : n < 64) :
    ¬ sextetChar n = '=' :=
  sextetChar_ne_pad_fin ⟨n, h⟩

theorem b64_decode_encode (bs : List Nat) :
    (∀ b ∈ bs, b < 256) → b64DecodeCore (b64EncodeCore bs) = bs := by
  induction bs using b64EncodeCore.induct with
  | case1 =>
    intro _
    rfl
  | case2 b1 =>
    intro hb
    have h1 : b1 < 256 := hb b1 (by simp)
    rw [b64EncodeCore, b64DecodeCore, if_pos rfl,
      sextetVal_sextetChar (by omega : b1 / 4 < 64),
      sextetVal_sextetChar (by omega : b1 % 4 * 16 < 64)]
    have : b1 / 4 * 4 + b1 % 4 * 16 / 16 = b1 := by omega
    rw [this]
  | case3 b1 b2 =>
    intro hb
    have h1 : b1 < 256 := hb b1 (by simp)
    have h2 : b2 < 256 := hb b2 (by simp)
    rw [b64EncodeCore, b64DecodeCore,
      if_neg (sextetChar_ne_pad (by omega : b2 % 16 * 4 < 64)), if_pos rfl,
      sextetVal_sextetChar (by omega : b1 / 4 < 64),
      sextetVal_sextetChar (by omega : b1 % 4 * 16 + b2 / 16 < 64),
      sextetVal_sextetChar (by omega : b2 % 16 * 4 < 64)]
    have e1 : b1 / 4 * 4 + (b1 % 4 * 16 + b2 / 16) / 16 = b1 := by omega
    have e2 : (b1 % 4 * 16 + b2 / 16) % 16 * 16 + b2 % 16 * 4 / 4 = b2 := by omega
    rw [e1, e2]
  | case4 b1 b2 b3 rest ih =>
    intro hb
    have h1 : b1 < 256 := hb b1 (by simp)
    have h2 : b2 < 256 := hb b2 (by simp)
    have h3 : b3 < 256 := hb b3 (by simp)
    have hrest : ∀ b ∈ rest, b < 256 := fun b hbm => hb b (by simp [hbm])
    rw [b64EncodeCore, b64DecodeCore,
      if_neg (sextetChar_ne_pad (by omega : b2 % 16 * 4 + b3 / 64 < 64)),
      if_neg (sextetChar_ne_pad (by omega : b3 % 64 < 64)),
      sextetVal_sextetChar (by omega : b1 / 4 < 64),
      sextetVal_sextetChar (by omega : b1 % 4 * 16 + b2 / 16 < 64),
      sextetVal_sextetChar (by omega : b2 % 16 * 4 + b3 / 64 < 64),
      sextetVal_sextetChar (by omega : b3 % 64 < 64),
      ih hrest]
    have e1 : b1 / 4 * 4 + (b1 % 4 * 16 + b2 / 16) / 16 = b1 := by omega
    have e2 : (b1 % 4 * 16 + b2 / 16) % 16 * 16 + (b2 % 16 * 4 + b3 / 64) / 4 = b2 := by
      omega
    have e3 : (b2 % 16 * 4 + b3 / 64) % 4 * 64 + b3 % 64 = b3 := by omega
    rw [e1, e2, e3]

/-- C6: when the `from` argument of the branch-creation tool does not match a
40-hex commit SHA, `execute` first resolves a ref name to a SHA via remote
lookup(s) — the explicit `from` branch when supplied, otherwise the
repository's default branch — and then creates the new branch ref from the
looked-up SHA; with `from` omitted, exactly the two lookups
`repos.get` and `git.getRef` precede the `git.createRef` call. -/
theorem createBranch_exec_resolves_then_creates (env : BranchEnv)
    (owner repo branch : String) :
    (∀ s : String, (s == "") = false → is40HexSha s = false →
      createBranchExec env owner repo branch (some s)
        = ([RemoteCall.gitGetRef owner repo ("heads/" ++ s),
            RemoteCall.gitCreateRef owner repo ("refs/heads/" ++ branch)
              (env.refSha ("heads/" ++ s))],
           env.refSha ("heads/" ++ s)))
    ∧ createBranchExec env owner repo branch none
        = ([RemoteCall.reposGet owner repo,
            RemoteCall.gitGetRef owner repo ("heads/" ++ env.defaultBranch),
            RemoteCall.gitCreateRef owner repo ("refs/heads/" ++ branch)
              (env.refSha ("heads/" ++ env.defaultBranch))],
           env.refSha ("heads/" ++ env.defaultBranch)) := by
  constructor
  · intro s hne hhex
    simp [createBranchExec, hne, hhex]
  · rfl

/-- Witness for C6: branching from the non-SHA branch name `develop` issues
one `git.getRef` lookup on `heads/develop` and then creates the ref from the
looked-up SHA. -/
theorem createBranch_exec_resolves_then_creates_witness :
    createBranchExec
        ⟨"main", fun _ => "0123456789abcdef0123456789abcdef01234567"⟩
        "octo" "hello" "feature" (some "develop")
      = ([RemoteCall.gitGetRef "octo" "hello" "heads/develop",
          RemoteCall.gitCreateRef "octo" "hello" "refs/heads/feature"
            "0123456789abcdef0123456789abcdef01234567"],
         "0123456789abcdef0123456789abcdef01234567") :=
  (createBranch_exec_resolves_then_creates
      ⟨"main", fun _ => "0123456789abcdef0123456789abcdef01234567"⟩
      "octo" "hello" "feature").1 "develop" (by decide) (by decide)

/-- C7: the base64 encoding step of `createOrUpdateFile` followed by the
base64 decoding step of `getFileContent` is the identity on every byte
sequence (every file content round-trips); and on a directory path
`getFileContent` returns the listing that maps each remote entry to its
`{name, type, path}` projection in the remote response order. -/
theorem file_content_roundtrip_and_dir_order
    (owner repo path message p sha : String) (size : Nat)
    (branch shaOpt : Option String) :
    (∀ content : List Nat, (∀ b ∈ content, b < 256) →
      getFileContentExec (.node "file" p sha size
          ((createOrUpdateFileExec owner repo path message content
              branch shaOpt).content))
        = .file p sha size content)
    ∧ ∀ entries : List ContentEntry,
        getFileContentExec (.dir entries)
          = .directory (entries.map fun e => ⟨e.name, e.type, e.path⟩)
        ∧ ((entries.map fun e => (⟨e.name, e.type, e.path⟩ : ContentEntry)).map
              fun e => e.name)
            = entries.map fun e => e.name := by
  constructor
  · intro content hb
    simp [getFileContentExec, createOrUpdateFileExec, b64_decode_encode content hb]
  · intro entries
    exact ⟨rfl, by simp⟩

/-- Witness for C7: the two-byte content `"hi"` (UTF-8 bytes 104, 105)
round-trips through the create/update encoding and the retrieval decoding. -/
theorem file_content_roundtrip_and_dir_order_witness :
    getFileContentExec (.node "file" "README.md" "abc" 2
        ((createOrUpdateFileExec "o" "r" "README.md" "msg" [104, 105]
            none none).content))
      = .file "README.md" "abc" 2 [104, 105] :=
  (file_content_roundtrip_and_dir_order "o" "r" "README.md" "msg"
      "README.md" "abc" 2 none none).1 [104, 105] (by decide)

/-- C10: every cherry-pickable mutating tool factory of
`tools/repository.ts`, invoked without an options argument or with an
options object that omits `needsApproval`, produces a tool whose
`needsApproval` flag is `true`. -/
theorem cherry_factories_default_needsApproval (ok : Octokit) :
    (createBranch ok none).needsApproval = true
    ∧ (createBranch ok (some {})).needsApproval = true
    ∧ (forkRepository ok none).needsApproval = true
    ∧ (forkRepository ok (some {})).needsApproval = true
    ∧ (createRepository ok none).needsApproval = true
    ∧ (createRepository ok (some {})).needsApproval = true
    ∧ (createOrUpdateFile ok none).needsApproval = true
    ∧ (createOrUpdateFile ok (some {})).needsApproval = true :=
  ⟨rfl, rfl, rfl, rfl, rfl, rfl, rfl, rfl⟩

end GithubTools

